import Mathlib

/-
Verification development for the signature-verification core of
src/src/lightcone/ethereum/metaMask.js.

The source is JavaScript built around promises and callbacks.  The embedding
makes the effects explicit:

* External collaborators (the web3 provider gateway, the ABI codec, the
  hashing and curve primitives from ethereumjs-util / the formatter module)
  are fields of an `Env` record: uninterpreted total functions, except where
  a library function's own control flow matters (fromRpcSig's length check,
  ecrecover's v check), which is modelled explicitly.
* A strategy promise either resolves with a JS value ({result: bool} or
  {error: err}) or an exception escapes (executor throw, or a throw inside a
  gateway callback).  A strategy therefore returns `Except String StratRes`,
  where `Except.error m` is an escaped exception with message m: the promise
  is rejected or never settles, and awaiting it never yields a value.
* `personalSign`'s outer promise resolves with {sig}, {error: 'string'} or
  {error: errObject}; when an awaited strategy's exception escapes, the outer
  promise never resolves, modelled by the outcome `PSOut.hang`.
-/

namespace MetaMask

/-- JS string slice: s.slice(a, b) for 0 <= a <= b, in characters. -/
def jsSlice (s : String) (a b : Nat) : String :=
  String.mk ((s.data.drop a).take (b - a))

/-- Modelled from the spec: ASCII lowercase of one character, the behaviour
of JS toLowerCase on the address/hex strings this code compares. -/
def lowerChar (c : Char) : Char :=
  if 'A' ≤ c ∧ c ≤ 'Z' then Char.ofNat (c.toNat + 32) else c

/-- JS s.toLowerCase() on the ASCII strings compared by this code. -/
def jsLower (s : String) : String :=
  String.mk (s.data.map lowerChar)

/-- Value of one hex digit character (0 for non-hex characters). -/
def hexDigit (c : Char) : Nat :=
  if '0' ≤ c ∧ c ≤ '9' then c.toNat - 48
  else if 'a' ≤ c ∧ c ≤ 'f' then c.toNat - 87
  else if 'A' ≤ c ∧ c ≤ 'F' then c.toNat - 55
  else 0

/-- Modelled from the spec: the formatter module's toNumber on a 0x-prefixed
hex string (src/lightcone/common/formatter is not in the source tree); the
source applies it to the final byte of the signature, "v = final byte". -/
def toNumber (s : String) : Nat :=
  (if s.data.take 2 = ['0', 'x'] then s.data.drop 2 else s.data).foldl
    (fun a c => 16 * a + hexDigit c) 0

/-- Modelled from the spec: the formatter module's addHexPrefix (hex strings
are 0x-prefixed; src/lightcone/common/formatter is not in the source tree). -/
def addHexPrefix (s : String) : String :=
  if s.data.take 2 = ['0', 'x'] then s else String.mk (['0', 'x'] ++ s.data)

/-- JS s.indexOf(pat): first character index of pat in s, -1 when absent. -/
def jsIndexOf (s pat : String) : Int :=
  match (List.range (s.data.length + 1)).find?
      (fun i => (s.data.drop i).take pat.data.length == pat.data) with
  | some i => (i : Int)
  | none => -1

/-- JS s.substring(0, e): negative e is clamped to 0. -/
def jsSubstringTo (s : String) (e : Int) : String :=
  String.mk (s.data.take e.toNat)

/-- The error-message trimming in sign():
err.message.substring(0, err.message.indexOf(' at ')). -/
def trimErrMessage (m : String) : String :=
  jsSubstringTo m (jsIndexOf m " at ")

/-- A JS Error object as used here: only its .message is read. -/
structure JsError where
  message : String
deriving DecidableEq

/-- The {r, s, v} record produced by sign(): r and s are hex strings, v a
number. -/
structure SignRSV where
  r : String
  s : String
  v : Nat
deriving DecidableEq

/-- The {v, r, s} record produced by ethereumjs-util's fromRpcSig: r and s
are 32-byte buffers, v a number. -/
structure RpcSig where
  v : Nat
  r : List Nat
  s : List Nat
deriving DecidableEq

/-- A named argument value handed to the ABI codec's encodeInputs. -/
inductive AbiVal where
  | str (s : String)
  | num (n : Nat)
  | bytes (b : List Nat)
deriving DecidableEq

/-- A resolved strategy promise: {result: b} or {error: err}. -/
inductive StratRes where
  | result (b : Bool)
  | errored (e : JsError)
deriving DecidableEq

/-- JS truthiness of valid.result on a resolved strategy value: an {error}
resolution has no .result field, so it reads as undefined, hence falsy. -/
def stratTruthy : StratRes → Bool
  | .result b => b
  | .errored _ => false

/-- Outcome of the personalSign orchestrator's promise.
sig/errStr/errObj are the three resolve(...) shapes in the source; hang
means an exception escaped an awaited strategy, so the outer promise never
resolves. -/
inductive PSOut where
  | sig (s : String)
  | errStr (m : String)
  | errObj (e : JsError)
  | hang
deriving DecidableEq

/-- A JS transaction object as a field map (field name to optional value). -/
def TxObj : Type := String → Option String

/-- External collaborators of the engine: the provider gateway, the ABI
codec, the hashing/curve primitives and the ethereumjs-tx envelope, all as
uninterpreted total functions plus the ambient imToken environment flag. -/
structure Env where
  imToken : Bool
  personalSignCall : String → String → Except JsError String
  ecRecoverCall : String → String → Except JsError String
  ethCall : String → String → Except JsError String
  signCall : String → String → Except JsError String
  sendTx : TxObj → Except JsError String
  hashPersonalMessage : List Nat → List Nat
  keccak256 : List Nat → List Nat
  secpRecover : List Nat → Nat → List Nat → List Nat → Except String (List Nat)
  pubToAddress : List Nat → List Nat
  toBuffer : String → List Nat
  toHex : List Nat → String
  encodeInputs : String → List (String × AbiVal) → String
  decodeOutputs : String → String → List String
  txHash : TxObj → List Nat
  txChainId : TxObj → Nat
  txSerialize : TxObj → SignRSV → List Nat

/-- ethereumjs-util fromRpcSig: toBuffer the hex string, demand exactly 65
bytes, split 32/32/1 and lift a v below 27 by 27. Throws (Except.error) on
any other length. -/
def fromRpcSig (env : Env) (sig : String) : Except String RpcSig :=
  let buf := env.toBuffer sig
  if buf.length = 65 then
    let v0 := buf.getD 64 0
    Except.ok ⟨if v0 < 27 then v0 + 27 else v0, buf.take 32, (buf.drop 32).take 32⟩
  else Except.error "Invalid signature length"

/-- ethereumjs-util ecrecover: throws unless the recovery id is 27 or 28,
then defers to the secp256k1 recovery primitive (itself fallible). -/
def ecrecoverLib (env : Env) (msgHash : List Nat) (v : Nat) (r s : List Nat) :
    Except String (List Nat) :=
  if v = 27 ∨ v = 28 then env.secpRecover msgHash v r s
  else Except.error "Invalid signature v value"

/-- The success-branch decomposition in sign(): fixed character offsets on
the 0x-prefixed 65-byte hex signature string, r = chars 0-65 (32 bytes with
the 0x prefix), s = chars 66-129, v = the final byte, lifted by 27 when the
signer returned 0 or 1. -/
def decomposeSig (result : String) : SignRSV :=
  let r := jsSlice result 0 66
  let s := addHexPrefix (jsSlice result 66 130)
  let v0 := toNumber ( addHexPrefix (jsSlice result 130 132))
  { r := r, s := s, v := if v0 = 0 ∨ v0 = 1 then v0 + 27 else v0 }

/-- sign(web3, account, hash): web3.eth.sign then split the raw signature,
or surface the provider's message trimmed at the first ' at ' marker. -/
def sign (env : Env) (account hash : String) : Except JsError SignRSV :=
  match env.signCall hash account with
  | .ok result => .ok (decomposeSig result)
  | .error err => .error ⟨trimErrMessage err.message⟩

/-- ecRecover strategy: web3.eth.personal.ecRecover, compare the recovered
address with the account case-insensitively; a gateway error resolves as
{error: err}. Never throws. -/
def ecRecover (env : Env) (account msg sig : String) : Except String StratRes :=
  match env.ecRecoverCall msg sig with
  | .ok address => .ok (.result (jsLower address == jsLower account))
  | .error err => .ok (.errored err)

/-- contractWalletValidate: isValidSignature(bytes,bytes) with the personal
message hash of the raw message; Verified iff the decoded first output,
re-hex-encoded, equals the first 4 bytes (10 hex chars) of the call-data. -/
def contractWalletValidate (env : Env) (account msg sig : String) :
    Except String StratRes :=
  let hash := env.hashPersonalMessage (env.toBuffer msg)
  let data := env.encodeInputs "isValidSignature(bytes,bytes)"
    [("_data", .bytes hash), ("_signature", .bytes (env.toBuffer sig))]
  match env.ethCall account data with
  | .ok result =>
    match (env.decodeOutputs "isValidSignature(bytes,bytes)" result).head? with
    | some v0 => .ok (.result (env.toHex (env.toBuffer v0) == jsSlice data 0 10))
    | none => .error "invalid type"
  | .error err => .ok (.errored err)

/-- contractWalletValidate2: as contractWalletValidate but with the
isValidSignature(bytes32,bytes) method signature. -/
def contractWalletValidate2 (env : Env) (account msg sig : String) :
    Except String StratRes :=
  let hash := env.hashPersonalMessage (env.toBuffer msg)
  let data := env.encodeInputs "isValidSignature(bytes32,bytes)"
    [("_data", .bytes hash), ("_signature", .bytes (env.toBuffer sig))]
  match env.ethCall account data with
  | .ok result =>
    match (env.decodeOutputs "isValidSignature(bytes32,bytes)" result).head? with
    | some v0 => .ok (.result (env.toHex (env.toBuffer v0) == jsSlice data 0 10))
    | none => .error "invalid type"
  | .error err => .ok (.errored err)

/-- The fixed MyKey registry contract address baked into the source. -/
def myKeyContract : String := "0xADc92d1fD878580579716d944eF3460E241604b7"

/-- mykeyWalletValid: getKeyData(account, 3) on the fixed registry contract,
then recover the signer from hashPersonalMessage(keccak256(msg)) and the
(v,r,s) of the signature, and compare with the registry-returned address.
fromRpcSig/ecrecover throw inside the gateway callback, so the promise never
settles on a malformed signature (Except.error here). -/
def mykeyWalletValid (env : Env) (account msg sig : String) :
    Except String StratRes :=
  let data := env.encodeInputs "getKeyData"
    [("_account", .str account), ("_index", .num 3)]
  match env.ethCall myKeyContract data with
  | .ok res => do
    let signature ← fromRpcSig env sig
    let hash := env.hashPersonalMessage (env.keccak256 (env.toBuffer msg))
    match (env.decodeOutputs "getKeyData" res).head? with
    | some a0 =>
      let address := addHexPrefix a0
      let pub ← ecrecoverLib env hash signature.v signature.r signature.s
      let recAddress := env.toHex (env.pubToAddress pub)
      return .result (jsLower recAddress == jsLower address)
    | none => .error "invalid type"
  | .error err => .ok (.errored err)

/-- authereumValid: as contractWalletValidate but _data is the raw message
bytes, unhashed, because the Authereum contract hashes internally. -/
def authereumValid (env : Env) (account msg sig : String) :
    Except String StratRes :=
  let hash := env.toBuffer msg
  let data := env.encodeInputs "isValidSignature(bytes,bytes)"
    [("_data", .bytes hash), ("_signature", .bytes (env.toBuffer sig))]
  match env.ethCall account data with
  | .ok result =>
    match (env.decodeOutputs "isValidSignature(bytes,bytes)" result).head? with
    | some v0 => .ok (.result (env.toHex (env.toBuffer v0) == jsSlice data 0 10))
    | none => .error "invalid type"
  | .error err => .ok (.errored err)

/-- walletLinkValid: entirely local recovery — personal message hash of the
raw message bytes, fromRpcSig, ecrecover, compare with the account
case-insensitively.  A recovery throw rejects the promise (Except.error). -/
def walletLinkValid (env : Env) (account msg sig : String) :
    Except String StratRes := do
  let signature ← fromRpcSig env sig
  let hash := env.hashPersonalMessage (env.toBuffer msg)
  let pub ← ecrecoverLib env hash signature.v signature.r signature.s
  let recAddress := env.toHex (env.pubToAddress pub)
  return .result (jsLower recAddress == jsLower account)

/-- personalSign: the orchestrator. web3.eth.personal.sign, then the
imToken bypass, then the WalletLink / Authereum single-strategy paths, then
the generic chain ecRecover, contractWalletValidate, contractWalletValidate2,
mykeyWalletValid, first truthy result wins; an exception escaping an awaited
strategy leaves the outer promise unresolved (hang). -/
def personalSign (env : Env) (account msg walletType : String) : PSOut :=
  match env.personalSignCall msg account with
  | .error err => .errObj err
  | .ok result =>
    if env.imToken then .sig result
    else if walletType = "WalletLink" then
      match walletLinkValid env account msg result with
      | .error _ => .hang
      | .ok v =>
        if stratTruthy v then .sig result
        else .errStr "Failed to valid using WalletLink"
    else if walletType = "Authereum" then
      match authereumValid env account msg result with
      | .error _ => .hang
      | .ok v =>
        if stratTruthy v then .sig result
        else .errStr "invalid sig using Authereum"
    else
      match ecRecover env account msg result with
      | .error _ => .hang
      | .ok v1 =>
        if stratTruthy v1 then .sig result
        else
          match contractWalletValidate env account msg result with
          | .error _ => .hang
          | .ok v2 =>
            if stratTruthy v2 then .sig result
            else
              match contractWalletValidate2 env account msg result with
              | .error _ => .hang
              | .ok v3 =>
                if stratTruthy v3 then .sig result
                else
                  match mykeyWalletValid env account msg result with
                  | .error _ => .hang
                  | .ok v4 =>
                    if stratTruthy v4 then .sig result
                    else .errStr "invalid sig"

/-- signEthereumTx: hash the envelope (chain-id aware, unsigned), sign the
hash, add chainId*2 + 8 to v, merge and serialize; a sign error is
re-thrown as an Error with the sign primitive's message. -/
def signEthereumTx (env : Env) (account : String) (rawTx : TxObj) :
    Except String String :=
  let hash := env.toHex (env.txHash rawTx)
  match sign env account hash with
  | .ok signature =>
    .ok (env.toHex (env.txSerialize rawTx
      { signature with v := signature.v + env.txChainId rawTx * 2 + 8 }))
  | .error e => .error e.message

/-- sendTransaction: delete tx.gasPrice on the caller's object, then submit
the mutated object; the first component is the caller-visible object after
the call, the second the submission outcome. -/
def sendTransaction (env : Env) (tx : TxObj) : TxObj × Except String String :=
  let tx2 : TxObj := fun k => if k = "gasPrice" then none else tx k
  (tx2,
    match env.sendTx tx2 with
    | .ok h => .ok h
    | .error e => .error e.message)

/-!  Concrete environments used to evaluate the model at explicit inputs. -/

/-- A concrete sample environment: sign succeeds, ecRecover returns a
non-matching address, contract calls return data that does not echo the
selector, and every 65-byte buffer decodes to an all-zero signature. -/
def baseEnv : Env :=
  { imToken := false
    personalSignCall := fun _ _ => .ok "0xsig"
    ecRecoverCall := fun _ _ => .ok "0xbb"
    ethCall := fun _ _ => .ok "ret"
    signCall := fun _ _ => .ok "0xsig"
    sendTx := fun _ => .ok "0xtxhash"
    hashPersonalMessage := fun b => b
    keccak256 := fun b => b
    secpRecover := fun _ _ _ _ => .ok [1]
    pubToAddress := fun b => b
    toBuffer := fun _ => List.replicate 65 0
    toHex := fun _ => "0xcc"
    encodeInputs := fun m _ => m
    decodeOutputs := fun _ r => [r]
    txHash := fun _ => [7]
    txChainId := fun _ => 5
    txSerialize := fun _ _ => [9] }

/-- baseEnv with a matching ecRecover answer (differing from the claimed
account only by letter case). -/
def envRecoverOk : Env := { baseEnv with ecRecoverCall := fun _ _ => .ok "0xAA" }

/-- baseEnv on an imToken provider. -/
def envImToken : Env := { baseEnv with imToken := true }

/-- baseEnv with a provider that hands back a malformed (1-byte) signature
buffer, so that fromRpcSig throws. -/
def envBadSig : Env := { baseEnv with toBuffer := fun _ => [0] }

/-- baseEnv whose personal-sign call fails with a message that carries an
in-process location marker. -/
def envSignFail : Env :=
  { baseEnv with personalSignCall :=
      fun _ _ => .error ⟨"User denied at Object.send (x.js:1:1)"⟩ }

/-- baseEnv whose low-level web3.eth.sign call fails. -/
def envEthSignFail : Env :=
  { baseEnv with signCall := fun _ _ => .error ⟨"boom at y.js"⟩ }

/-- A sample transaction object with every field present. -/
def txSample : TxObj := fun k => some k

/-- A concrete 130-character signature prefix (the 0x-prefixed r and s part
of a raw 65-byte hex signature string). -/
def pSample : String := String.mk (List.replicate 130 '1')

/-!  Theorems for the claims. -/

/-- C2: for every verification request made through an imToken provider
whose sign call succeeds, the Orchestrator accepts the signature
unconditionally: the outcome is Accept for every account, message and
wallet-type hint, with no constraint at all on any verification gateway, so
no verification strategy runs and authenticity is never checked. -/
theorem C2_imToken_unconditional_accept (env : Env)
    (account msg walletType s : String)
    (him : env.imToken = true)
    (hsign : env.personalSignCall msg account = .ok s) :
    personalSign env account msg walletType = .sig s := by
  simp [personalSign, hsign, him]

theorem C2_witness : personalSign envImToken "0xaa" "m" "WalletLink" = .sig "0xsig" :=
  C2_imToken_unconditional_accept envImToken "0xaa" "m" "WalletLink" "0xsig" rfl rfl

/-- C4 counterexample: when the personal-sign call fails, personalSign
surfaces the raw provider error object, whose message still contains the
' at ...' location detail; the trimmed message required by the claim would
be "User denied", which differs.  The substring trimming exists only in the
lower-level sign primitive, not in the orchestrator. -/
theorem C4_counterexample :
    personalSign envSignFail "0xaa" "m" "" =
      .errObj ⟨"User denied at Object.send (x.js:1:1)"⟩
    ∧ trimErrMessage "User denied at Object.send (x.js:1:1)" = "User denied"
    ∧ ("User denied at Object.send (x.js:1:1)" : String) ≠ "User denied" :=
  ⟨rfl, rfl, by decide⟩

/-- C4 amended: whenever the underlying sign call reports an error, the
Orchestrator short-circuits — final outcome Error, no strategy consulted —
but it surfaces the provider's error object verbatim, untrimmed; the
trimming that keeps only the text before the first ' at ' location marker
is applied only by the lower-level sign primitive used for hash signing. -/
theorem C4_amended_sign_error_short_circuit (env : Env)
    (account msg walletType hash : String) :
    (∀ err, env.personalSignCall msg account = .error err →
      personalSign env account msg walletType = .errObj err)
    ∧ (∀ err, env.signCall hash account = .error err →
      sign env account hash = .error ⟨trimErrMessage err.message⟩) := by
  constructor
  · intro err h
    simp [personalSign, h]
  · intro err h
    simp [sign, h]

theorem C4_witness :
    personalSign envSignFail "0xaa" "m" "x" =
      .errObj ⟨"User denied at Object.send (x.js:1:1)"⟩
    ∧ sign envEthSignFail "0xaa" "0xh" = .error ⟨"boom"⟩ := by
  constructor
  · exact (C4_amended_sign_error_short_circuit envSignFail "0xaa" "m" "x" "0xh").1 _ rfl
  · exact ((C4_amended_sign_error_short_circuit envEthSignFail "0xaa" "m" "x" "0xh").2
      ⟨"boom at y.js"⟩ rfl).trans (by rfl)

/-- C10: sendTransaction deletes the gasPrice property from the
caller-supplied transaction object before submitting it: after the call the
object has no gasPrice, every other field is unchanged, and the submission
outcome never depends on the gasPrice the caller had set. -/
theorem C10_sendTransaction_deletes_gasPrice (env : Env) (tx : TxObj) :
    (sendTransaction env tx).1 "gasPrice" = none
    ∧ (∀ k, k ≠ "gasPrice" → (sendTransaction env tx).1 k = tx k)
    ∧ (∀ tx2 : TxObj, (∀ k, k ≠ "gasPrice" → tx2 k = tx k) →
        (sendTransaction env tx2).2 = (sendTransaction env tx).2) := by
  refine ⟨by simp [sendTransaction], ?_, ?_⟩
  · intro k hk
    simp [sendTransaction, hk]
  · intro tx2 h
    have hfun : (fun k => if k = "gasPrice" then none else tx2 k)
        = (fun k => if k = "gasPrice" then none else tx k) := by
      funext k
      by_cases hk : k = "gasPrice"
      · simp [hk]
      · simp [hk, h k hk]
    simp only [sendTransaction]
    rw [hfun]

theorem C10_witness :
    (sendTransaction baseEnv txSample).1 "gasPrice" = none
    ∧ (sendTransaction baseEnv txSample).1 "gas" = txSample "gas" :=
  ⟨(C10_sendTransaction_deletes_gasPrice baseEnv txSample).1,
   (C10_sendTransaction_deletes_gasPrice baseEnv txSample).2.1 "gas" (by decide)⟩

/-- C1 counterexample: when every strategy of the generic chain finishes
without Verified, the final outcome is the rejection {error: 'invalid sig'},
not the reason "invalid signature" stated by the claim. -/
theorem C1_counterexample :
    personalSign baseEnv "0xaa" "m" "" = .errStr "invalid sig"
    ∧ PSOut.errStr "invalid sig" ≠ PSOut.errStr "invalid signature" :=
  ⟨rfl, by decide⟩

/-- C1 amended: with an Unspecified hint, a successful sign call and a
non-imToken provider, the strategies run in the fixed order ecRecover,
contractWalletValidate (bytes,bytes), contractWalletValidate2
(bytes32,bytes), mykeyWalletValid; a strategy resolving {error} counts as
not verified and the chain continues; the first Verified strategy accepts
with no later strategy consulted (the clauses for an early success place no
condition whatsoever on the later strategies); and when all four finish
without Verified the outcome is the rejection with reason 'invalid sig'. -/
theorem C1_amended_generic_chain (env : Env) (account msg walletType s : String)
    (him : env.imToken = false)
    (hw1 : walletType ≠ "WalletLink") (hw2 : walletType ≠ "Authereum")
    (hsign : env.personalSignCall msg account = .ok s) :
    (∀ e, stratTruthy (.errored e) = false)
    ∧ (∀ r1, ecRecover env account msg s = .ok r1 → stratTruthy r1 = true →
        personalSign env account msg walletType = .sig s)
    ∧ (∀ r1 r2, ecRecover env account msg s = .ok r1 → stratTruthy r1 = false →
        contractWalletValidate env account msg s = .ok r2 → stratTruthy r2 = true →
        personalSign env account msg walletType = .sig s)
    ∧ (∀ r1 r2 r3, ecRecover env account msg s = .ok r1 → stratTruthy r1 = false →
        contractWalletValidate env account msg s = .ok r2 → stratTruthy r2 = false →
        contractWalletValidate2 env account msg s = .ok r3 → stratTruthy r3 = true →
        personalSign env account msg walletType = .sig s)
    ∧ (∀ r1 r2 r3 r4, ecRecover env account msg s = .ok r1 → stratTruthy r1 = false →
        contractWalletValidate env account msg s = .ok r2 → stratTruthy r2 = false →
        contractWalletValidate2 env account msg s = .ok r3 → stratTruthy r3 = false →
        mykeyWalletValid env account msg s = .ok r4 → stratTruthy r4 = true →
        personalSign env account msg walletType = .sig s)
    ∧ (∀ r1 r2 r3 r4, ecRecover env account msg s = .ok r1 → stratTruthy r1 = false →
        contractWalletValidate env account msg s = .ok r2 → stratTruthy r2 = false →
        contractWalletValidate2 env account msg s = .ok r3 → stratTruthy r3 = false →
        mykeyWalletValid env account msg s = .ok r4 → stratTruthy r4 = false →
        personalSign env account msg walletType = .errStr "invalid sig") := by
  refine ⟨fun e => rfl, ?_, ?_, ?_, ?_, ?_⟩
  · intro r1 h1 t1
    simp [personalSign, hsign, him, hw1, hw2, h1, t1]
  · intro r1 r2 h1 t1 h2 t2
    simp [personalSign, hsign, him, hw1, hw2, h1, t1, h2, t2]
  · intro r1 r2 r3 h1 t1 h2 t2 h3 t3
    simp [personalSign, hsign, him, hw1, hw2, h1, t1, h2, t2, h3, t3]
  · intro r1 r2 r3 r4 h1 t1 h2 t2 h3 t3 h4 t4
    simp [personalSign, hsign, him, hw1, hw2, h1, t1, h2, t2, h3, t3, h4, t4]
  · intro r1 r2 r3 r4 h1 t1 h2 t2 h3 t3 h4 t4
    simp [personalSign, hsign, him, hw1, hw2, h1, t1, h2, t2, h3, t3, h4, t4]

theorem C1_witness :
    personalSign envRecoverOk "0xaa" "m" "x" = .sig "0xsig"
    ∧ stratTruthy (.errored ⟨"boom"⟩) = false :=
  ⟨(C1_amended_generic_chain envRecoverOk "0xaa" "m" "x" "0xsig" rfl
      (by decide) (by decide) rfl).2.1 (.result true) rfl rfl,
   (C1_amended_generic_chain envRecoverOk "0xaa" "m" "x" "0xsig" rfl
      (by decide) (by decide) rfl).1 ⟨"boom"⟩⟩

/-- C3 counterexample: a malformed signature (1-byte buffer) makes
fromRpcSig throw; the strategy attempting recovery does not resolve with an
Error outcome — the exception escapes (Except.error, a rejected or
never-settling promise) — and the Orchestrator run produces no outcome at
all (hang), in the WalletLink path and in the generic chain alike, instead
of the claim's non-aborted chain. -/
theorem C3_counterexample :
    walletLinkValid envBadSig "0xaa" "m" "0xsig" = .error "Invalid signature length"
    ∧ mykeyWalletValid envBadSig "0xaa" "m" "0xsig" = .error "Invalid signature length"
    ∧ personalSign envBadSig "0xaa" "m" "WalletLink" = .hang
    ∧ personalSign envBadSig "0xaa" "m" "" = .hang :=
  ⟨rfl, rfl, rfl, rfl⟩

/-- C3 amended: a malformed signature whose buffer is not 65 bytes makes the
recovery-based strategies throw rather than resolve: walletLinkValid and
mykeyWalletValid end in an escaped exception (no Verified, NotVerified or
resolved Error outcome), and the exception aborts the Orchestrator — its
promise never resolves — in every path where recovery is attempted: the
WalletLink single-strategy path and the mykeyWalletValid stage of the
generic chain. -/
theorem C3_amended_recovery_throws (env : Env)
    (account msg sigStr walletType res : String) (r1 r2 r3 : StratRes)
    (hlen : (env.toBuffer sigStr).length ≠ 65)
    (him : env.imToken = false)
    (hsign : env.personalSignCall msg account = .ok sigStr)
    (hw1 : walletType ≠ "WalletLink") (hw2 : walletType ≠ "Authereum")
    (h1 : ecRecover env account msg sigStr = .ok r1) (t1 : stratTruthy r1 = false)
    (h2 : contractWalletValidate env account msg sigStr = .ok r2)
    (t2 : stratTruthy r2 = false)
    (h3 : contractWalletValidate2 env account msg sigStr = .ok r3)
    (t3 : stratTruthy r3 = false)
    (h4 : env.ethCall myKeyContract (env.encodeInputs "getKeyData"
        [("_account", .str account), ("_index", .num 3)]) = .ok res) :
    walletLinkValid env account msg sigStr = .error "Invalid signature length"
    ∧ mykeyWalletValid env account msg sigStr = .error "Invalid signature length"
    ∧ personalSign env account msg "WalletLink" = .hang
    ∧ personalSign env account msg walletType = .hang := by
  have hwl : walletLinkValid env account msg sigStr =
      .error "Invalid signature length" := by
    simp [walletLinkValid, fromRpcSig, hlen, Bind.bind, Except.bind]
  have hmk : mykeyWalletValid env account msg sigStr =
      .error "Invalid signature length" := by
    simp [mykeyWalletValid, h4, fromRpcSig, hlen, Bind.bind, Except.bind]
  refine ⟨hwl, hmk, ?_, ?_⟩
  · simp [personalSign, hsign, him, hwl]
  · simp [personalSign, hsign, him, hw1, hw2, h1, t1, h2, t2, h3, t3, hmk]

theorem C3_witness :
    mykeyWalletValid envBadSig "0xdd" "m2" "0xsig" = .error "Invalid signature length"
    ∧ personalSign envBadSig "0xdd" "m2" "zz" = .hang := by
  have h := C3_amended_recovery_throws envBadSig "0xdd" "m2" "0xsig" "zz" "ret"
    (.result false) (.result false) (.result false)
    (by decide) rfl rfl (by decide) (by decide) rfl rfl rfl rfl rfl rfl rfl
  exact ⟨h.2.1, h.2.2.2⟩

/-- Slicing a 132-character hex signature string (130-character prefix plus
the 2-character v byte) at the fixed offsets used by sign(). -/
theorem jsSlice_sig_layout (p q : String) (hp : p.data.length = 130) :
    jsSlice (p ++ q) 0 66 = String.mk (p.data.take 66)
    ∧ jsSlice (p ++ q) 66 130 = String.mk ((p.data.drop 66).take 64)
    ∧ (q.data.length = 2 → jsSlice (p ++ q) 130 132 = q) := by
  refine ⟨?_, ?_, ?_⟩
  · simp [jsSlice, String.data_append, List.take_append_eq_append_take, hp]
  · have ht : (p.data.drop 66).take 64 = p.data.drop 66 :=
      List.take_of_length_le (by simp [hp])
    simp [jsSlice, String.data_append, List.drop_append_eq_append_drop, hp,
      List.take_append_eq_append_take, ht]
  · intro hq
    have hd : (p.data ++ q.data).drop 130 = q.data := by
      rw [List.drop_append_eq_append_drop, hp]
      simp [List.drop_of_length_le, hp]
    have ht : q.data.take 2 = q.data := List.take_of_length_le (Nat.le_of_eq hq)
    simp [jsSlice, String.data_append, hd, ht]

/-- C5: sign() splits the raw RPC signature at the fixed offsets — r is the
first 32 bytes (the 0x prefix plus 64 hex characters), s the next 32 bytes,
v the final byte — and lifts v by 27 exactly when it arrives as 0 or 1, so
a v arriving as 0 or 1 is normalized to 27 or 28 and yields the identical
(r,s,v) record as the same signature already carrying 27 or 28; the sign
function applies exactly this decomposition to a successful provider
result. -/
theorem C5_sign_fixed_offset_split (p : String) (hp : p.data.length = 130) :
    decomposeSig (p ++ "00") = decomposeSig (p ++ "1b")
    ∧ decomposeSig (p ++ "01") = decomposeSig (p ++ "1c")
    ∧ (decomposeSig (p ++ "00")).v = 27
    ∧ (decomposeSig (p ++ "01")).v = 28
    ∧ (decomposeSig (p ++ "1b")).v = 27
    ∧ (decomposeSig (p ++ "1c")).v = 28
    ∧ (decomposeSig (p ++ "1b")).r = String.mk (p.data.take 66)
    ∧ (decomposeSig (p ++ "1b")).s = addHexPrefix (String.mk ((p.data.drop 66).take 64))
    ∧ (∀ (env : Env) (account hash result : String),
        env.signCall hash account = .ok result →
        sign env account hash = .ok (decomposeSig result)) := by
  have h00 := jsSlice_sig_layout p "00" hp
  have h01 := jsSlice_sig_layout p "01" hp
  have h1b := jsSlice_sig_layout p "1b" hp
  have h1c := jsSlice_sig_layout p "1c" hp
  have e00 := h00.2.2 rfl
  have e01 := h01.2.2 rfl
  have e1b := h1b.2.2 rfl
  have e1c := h1c.2.2 rfl
  refine ⟨?_, ?_, ?_, ?_, ?_, ?_, ?_, ?_, ?_⟩
  · simp only [decomposeSig, h00.1, h00.2.1, e00, h1b.1, h1b.2.1, e1b,
      SignRSV.mk.injEq]
    exact ⟨trivial, trivial, by decide⟩
  · simp only [decomposeSig, h01.1, h01.2.1, e01, h1c.1, h1c.2.1, e1c,
      SignRSV.mk.injEq]
    exact ⟨trivial, trivial, by decide⟩
  · simp only [decomposeSig, e00]
    decide
  · simp only [decomposeSig, e01]
    decide
  · simp only [decomposeSig, e1b]
    decide
  · simp only [decomposeSig, e1c]
    decide
  · simp only [decomposeSig, h1b.1]
  · simp only [decomposeSig, h1b.2.1]
  · intro env account hash result h
    simp [sign, h]

theorem C5_witness :
    (decomposeSig (pSample ++ "00")).v = 27
    ∧ decomposeSig (pSample ++ "00") = decomposeSig (pSample ++ "1b") :=
  ⟨(C5_sign_fixed_offset_split pSample rfl).2.2.1,
   (C5_sign_fixed_offset_split pSample rfl).1⟩

/-- C6: mykeyWalletValid queries the fixed registry contract's getKeyData
with the account and index 3, hashes personalMessageHash(keccak256(msg))
itself, recovers the signer from the signature's (v,r,s), and reports
Verified exactly when the recovered address equals the registry-returned
address case-insensitively — the claimed account appears only in the
registry query, never in the comparison. -/
theorem C6_mykey_registry_comparison (env : Env)
    (account msg sig res a0 : String) (rsv : RpcSig) (pub : List Nat)
    (hcall : env.ethCall myKeyContract (env.encodeInputs "getKeyData"
        [("_account", .str account), ("_index", .num 3)]) = .ok res)
    (hsig : fromRpcSig env sig = .ok rsv)
    (hdec : (env.decodeOutputs "getKeyData" res).head? = some a0)
    (hv : rsv.v = 27 ∨ rsv.v = 28)
    (hrec : env.secpRecover
        (env.hashPersonalMessage (env.keccak256 (env.toBuffer msg)))
        rsv.v rsv.r rsv.s = .ok pub) :
    mykeyWalletValid env account msg sig =
      .ok (.result (jsLower (env.toHex (env.pubToAddress pub)) ==
        jsLower ( addHexPrefix a0))) := by
  simp only [mykeyWalletValid, hcall, hsig, hdec, Bind.bind, Except.bind]
  rw [ecrecoverLib, if_pos hv, hrec]
  rfl

theorem C6_witness :
    mykeyWalletValid baseEnv "0xaa" "m" "0xsig" = .ok (.result false) := by
  have h := C6_mykey_registry_comparison baseEnv "0xaa" "m" "0xsig" "ret" "ret"
    ⟨27, List.replicate 32 0, List.replicate 32 0⟩ [1] rfl rfl rfl (Or.inl rfl) rfl
  exact h.trans (by rfl)

/-- C7: with hint WalletLink (and no imToken bypass), the Orchestrator runs
only walletLinkValid, which computes the personal-message hash of the raw
message bytes, recovers the signer locally and compares it to the account
case-insensitively; a match accepts and anything else rejects with its
reason; and walletLinkValid depends only on the local hashing and curve
primitives, not on any gateway call or codec. -/
theorem C7_walletlink_local_recover (env : Env) (account msg s : String)
    (rsv : RpcSig) (pub : List Nat)
    (him : env.imToken = false)
    (hsign : env.personalSignCall msg account = .ok s)
    (hsig : fromRpcSig env s = .ok rsv)
    (hv : rsv.v = 27 ∨ rsv.v = 28)
    (hrec : env.secpRecover (env.hashPersonalMessage (env.toBuffer msg))
        rsv.v rsv.r rsv.s = .ok pub) :
    personalSign env account msg "WalletLink" =
      (if jsLower (env.toHex (env.pubToAddress pub)) == jsLower account
        then .sig s else .errStr "Failed to valid using WalletLink")
    ∧ ∀ env2 : Env, env2.toBuffer = env.toBuffer →
        env2.hashPersonalMessage = env.hashPersonalMessage →
        env2.secpRecover = env.secpRecover →
        env2.pubToAddress = env.pubToAddress →
        env2.toHex = env.toHex →
        walletLinkValid env2 account msg s = walletLinkValid env account msg s := by
  have hwl : walletLinkValid env account msg s =
      .ok (.result (jsLower (env.toHex (env.pubToAddress pub)) == jsLower account)) := by
    simp only [walletLinkValid, hsig, Bind.bind, Except.bind]
    rw [ecrecoverLib, if_pos hv, hrec]
    rfl
  constructor
  · simp only [personalSign, hsign, him, Bool.false_eq_true, if_false,
      if_pos rfl, hwl, stratTruthy]
    cases hb : jsLower (env.toHex (env.pubToAddress pub)) == jsLower account <;>
      simp [hb]
  · intro env2 e1 e2 e3 e4 e5
    simp [walletLinkValid, fromRpcSig, ecrecoverLib, e1, e2, e3, e4, e5]

theorem C7_witness :
    personalSign baseEnv "0xaa" "m" "WalletLink" =
      .errStr "Failed to valid using WalletLink" := by
  have h := C7_walletlink_local_recover baseEnv "0xaa" "m" "0xsig"
    ⟨27, List.replicate 32 0, List.replicate 32 0⟩ [1] rfl rfl rfl (Or.inl rfl) rfl
  exact h.1.trans (by rfl)

/-- C8: with hint Authereum (and no imToken bypass), the Orchestrator runs
only authereumValid, which encodes isValidSignature(bytes,bytes) with the
raw, unhashed message bytes as _data, issues a read-only call to the account
address, and is Verified exactly when the hex-encoded decoded first output
equals the first 4 bytes (10 hex characters) of the call-data sent;
Verified accepts, anything else — a mismatch or a call error — rejects. -/
theorem C8_authereum_raw_bytes (env : Env) (account msg s res v0 : String)
    (him : env.imToken = false)
    (hsign : env.personalSignCall msg account = .ok s) :
    (env.ethCall account (env.encodeInputs "isValidSignature(bytes,bytes)"
        [("_data", .bytes (env.toBuffer msg)),
         ("_signature", .bytes (env.toBuffer s))]) = .ok res →
      (env.decodeOutputs "isValidSignature(bytes,bytes)" res).head? = some v0 →
      personalSign env account msg "Authereum" =
        (if env.toHex (env.toBuffer v0) ==
            jsSlice (env.encodeInputs "isValidSignature(bytes,bytes)"
              [("_data", .bytes (env.toBuffer msg)),
               ("_signature", .bytes (env.toBuffer s))]) 0 10
          then .sig s else .errStr "invalid sig using Authereum"))
    ∧ (∀ e, env.ethCall account (env.encodeInputs "isValidSignature(bytes,bytes)"
        [("_data", .bytes (env.toBuffer msg)),
         ("_signature", .bytes (env.toBuffer s))]) = .error e →
      personalSign env account msg "Authereum" =
        .errStr "invalid sig using Authereum") := by
  constructor
  · intro hcall hdec
    have ha : authereumValid env account msg s =
        .ok (.result (env.toHex (env.toBuffer v0) ==
          jsSlice (env.encodeInputs "isValidSignature(bytes,bytes)"
            [("_data", .bytes (env.toBuffer msg)),
             ("_signature", .bytes (env.toBuffer s))]) 0 10)) := by
      simp only [authereumValid, hcall, hdec]
    simp only [personalSign, hsign, him, Bool.false_eq_true, if_false, ha, stratTruthy]
    cases hb : env.toHex (env.toBuffer v0) ==
        jsSlice (env.encodeInputs "isValidSignature(bytes,bytes)"
          [("_data", .bytes (env.toBuffer msg)),
           ("_signature", .bytes (env.toBuffer s))]) 0 10 <;> simp [hb]
  · intro e hcall
    have ha : authereumValid env account msg s = .ok (.errored e) := by
      simp only [authereumValid, hcall]
    simp [personalSign, hsign, him, ha, stratTruthy]

theorem C8_witness :
    personalSign baseEnv "0xaa" "m" "Authereum" =
      .errStr "invalid sig using Authereum" := by
  have h := (C8_authereum_raw_bytes baseEnv "0xaa" "m" "0xsig" "ret" "ret"
    rfl rfl).1 rfl rfl
  exact h.trans (by rfl)

/-- C9: signEthereumTx hashes the envelope, obtains (r,s,v) from the sign
primitive, adds exactly chainId*2 + 8 to v, merges the signature into the
envelope and returns its serialization; when the sign primitive reports an
error, it fails with that error's message and produces no signed bytes. -/
theorem C9_signEthereumTx_eip155 (env : Env) (account : String) (rawTx : TxObj) :
    (∀ result, env.signCall (env.toHex (env.txHash rawTx)) account = .ok result →
      signEthereumTx env account rawTx = .ok (env.toHex (env.txSerialize rawTx
        { r := (decomposeSig result).r, s := (decomposeSig result).s,
          v := (decomposeSig result).v + env.txChainId rawTx * 2 + 8 })))
    ∧ (∀ err, env.signCall (env.toHex (env.txHash rawTx)) account = .error err →
      signEthereumTx env account rawTx = .error (trimErrMessage err.message)) := by
  constructor
  · intro result h
    simp [signEthereumTx, sign, h]
  · intro err h
    simp [signEthereumTx, sign, h]

theorem C9_witness :
    signEthereumTx baseEnv "0xaa" txSample = .ok "0xcc"
    ∧ signEthereumTx envEthSignFail "0xaa" txSample = .error "boom" := by
  constructor
  · exact ((C9_signEthereumTx_eip155 baseEnv "0xaa" txSample).1 "0xsig" rfl).trans
      (by rfl)
  · exact ((C9_signEthereumTx_eip155 envEthSignFail "0xaa" txSample).2
      ⟨"boom at y.js"⟩ rfl).trans (by rfl)

end MetaMask
